import Mathlib

/-!
Verification development for the `vcastle` repository (YouTube Data API
client bindings).  The definitions below are shallow embeddings of the
Rust sources:

* `src/youtube_data/src/lib.rs` — the `DataApi` query-map helpers,
* `src/youtube_data/src/error.rs` — the error taxonomy, the display
  rendering of upstream error payloads, and
  `replace_sensitive_query_params`,
* `src/youtube_data/src/channels.rs` — `ChannelList` and its `request`,
* `src/youtube_data/src/videos.rs` — `VideoList` and its `request`,
* `src/youtube_data/src/search.rs` — `SearchList` and its `request`.

The network call itself and the JSON decoding of a successful response
are outside the embedded fragment: `request` is modelled up to the point
where the validated query-parameter map is handed to the HTTP client, so
it returns the parameter map on success and the builder error otherwise.
-/

namespace VCastle

/-! ## Query-parameter map plumbing (`lib.rs`, trait `DataApi`)

The Rust code accumulates parameters in a `HashMap<String, String>`.
We model the map as an association list; `mapInsert` mirrors
`HashMap::insert` (replace the binding if the key is present, otherwise
add it). -/

def mapInsert : List (String × String) → String → String → List (String × String)
  | [], k, v => [(k, v)]
  | (k0, v0) :: rest, k, v =>
    if k0 = k then (k, v) :: rest else (k0, v0) :: mapInsert rest k v

/-- `DataApi::insert_query_parameter` (lib.rs lines 74-86): insert only a
present, non-empty value.  Callers pass the `ToString` rendering of the
value. -/
def insertQueryParameter (map : List (String × String)) (key : String)
    (value : Option String) : List (String × String) :=
  match value with
  | none => map
  | some v => if v = "" then map else mapInsert map key v

/-- `DataApi::insert_query_parameters` (lib.rs lines 88-105): drop empty
elements, comma-join, insert only if the joined string is non-empty. -/
def insertQueryParameters (map : List (String × String)) (key : String)
    (value : Option (List String)) : List (String × String) :=
  match value with
  | none => map
  | some vs =>
    let v := String.intercalate "," (vs.filter (fun s => ¬ s = ""))
    if v = "" then map else mapInsert map key v

/-- The keys of a parameter map. -/
def mapKeys (map : List (String × String)) : List String := map.map Prod.fst

/-! ## Error taxonomy (`error.rs`) -/

/-- `BuilderErrorKind` (error.rs lines 175-187) together with the message
each constructor function attaches (error.rs lines 61-99). -/
inductive BuilderErrorKind where
  | invalidParameter (message : String)
  | incompatibleParameters (message : String)
  | missingRequiredParameter (message : String)
  | authorizationRequired (message : String)
deriving DecidableEq, Repr

/-- `YouTubeErrorDetail` (error.rs lines 254-262). -/
structure YouTubeErrorDetail where
  message : String
  domain : String
  reason : String
  location : Option String
  location_type : Option String
deriving DecidableEq, Repr

/-- `impl fmt::Display for YouTubeErrorDetail` (error.rs lines 264-278). -/
def YouTubeErrorDetail.render (d : YouTubeErrorDetail) : String :=
  "message: \"" ++ d.message ++ "\"" ++
  ", domain: \"" ++ d.domain ++ "\"" ++
  ", reason: \"" ++ d.reason ++ "\"" ++
  (match d.location with
   | some l => ", location: \"" ++ l ++ "\""
   | none => "") ++
  (match d.location_type with
   | some lt => ", location_type: \"" ++ lt ++ "\""
   | none => "")

/-- The detail loop of `impl fmt::Display for YouTubeErrorRepr`
(error.rs lines 241-247).  The Rust loop calls `details.next()` once to
obtain the record to print and a second time to decide whether to emit
the separator, so the record consumed by the look-ahead is never
printed: `[d1, d2]` renders as `d1, ` and `[d1, d2, d3]` as `d1, d3`. -/
def renderDetails : List YouTubeErrorDetail → String
  | [] => ""
  | [d] => d.render
  | d :: _ :: rest => d.render ++ ", " ++ renderDetails rest

/-- `YouTubeErrorRepr` (error.rs lines 223-231).  The `code` field holds
the `Display` rendering of the HTTP `StatusCode` (for example
`"400 Bad Request"`), which is what `write!(f, "{}", &self.code)`
emits. -/
structure YouTubeErrorRepr where
  code : String
  message : String
  errors : List YouTubeErrorDetail
  status : Option String
deriving DecidableEq, Repr

/-- `impl fmt::Display for YouTubeErrorRepr` (error.rs lines 233-252). -/
def YouTubeErrorRepr.render (e : YouTubeErrorRepr) : String :=
  e.code ++
  (match e.status with
   | some s => " status: \"" ++ s ++ "\""
   | none => "") ++
  " message: \"" ++ e.message ++ "\"" ++
  " [" ++ renderDetails e.errors ++ "]"

/-- `replace_sensitive_query_params` (error.rs lines 280-302).  The URL is
modelled by its path and its decoded query pairs (`url.query_pairs()`);
`Vec::sort` on the formatted `key=value` strings is an ascending
lexicographic sort, modelled by `List.insertionSort`. -/
def replaceSensitiveQueryParams (path : String)
    (queryPairs : List (String × String)) : String :=
  let queries := queryPairs.map (fun p =>
    if ¬ p.1 = "key" then p.1 ++ "=" ++ p.2 else p.1 ++ "=" ++ "[API_KEY]")
  let queries := List.insertionSort (fun a b : String => a ≤ b) queries
  path ++ "?" ++ String.intercalate "&" queries

/-- The sorted rendered query entries of `replaceSensitiveQueryParams`. -/
def sortedQueryEntries (queryPairs : List (String × String)) : List String :=
  List.insertionSort (fun a b : String => a ≤ b)
    (queryPairs.map (fun p =>
      if ¬ p.1 = "key" then p.1 ++ "=" ++ p.2 else p.1 ++ "=" ++ "[API_KEY]"))

/-- Whether `needle` occurs as a contiguous subsequence of `hay`. -/
def containsSeq (needle : List Char) : List Char → Bool
  | [] => needle.isEmpty
  | c :: rest => needle.isPrefixOf (c :: rest) || containsSeq needle rest

/-! ## Channels endpoint (`channels.rs`) -/

/-- `channels::Part` (channels.rs lines 234-246). -/
inductive ChannelPart where
  | auditDetails | brandingSettings | contentDetails | contentOwnerDetails
  | id | localizations | snippet | statistics | status | topicDetails
deriving DecidableEq, Repr

/-- `impl Display for Part` (channels.rs lines 248-265). -/
def ChannelPart.toWire : ChannelPart → String
  | .auditDetails => "auditDetails"
  | .brandingSettings => "brandingSettings"
  | .contentDetails => "contentDetails"
  | .contentOwnerDetails => "contentOwnerDetails"
  | .id => "id"
  | .localizations => "localizations"
  | .snippet => "snippet"
  | .statistics => "statistics"
  | .status => "status"
  | .topicDetails => "topicDetails"

/-- The parameter state of `ChannelList` (channels.rs lines 30-47).
Borrowed `&str` parameters are modelled as `String`s, `u32` as `Nat`. -/
structure ChannelList where
  part : List ChannelPart
  for_username : Option String := none
  id : Option String := none
  managed_by_me : Option Bool := none
  mine : Option Bool := none
  hl : Option String := none
  max_results : Option Nat := none
  on_behalf_of_content_owner : Option String := none
  page_token : Option String := none
deriving DecidableEq, Repr

/-- `ChannelList::new` (channels.rs lines 167-185). -/
def ChannelList.new (part : List ChannelPart) : ChannelList :=
  { part := if part.isEmpty then [ChannelPart.id] else part }

/-- `ChannelList::id` setter (channels.rs lines 197-200). -/
def ChannelList.set_id (self : ChannelList) (id : String) : ChannelList :=
  { self with id := some id }

/-- `ChannelList::max_results` setter (channels.rs lines 217-221): clamps
the page size to at most 50 before storing it. -/
def ChannelList.set_max_results (self : ChannelList) (max_results : Nat) :
    ChannelList :=
  let max_results := if max_results > 50 then 50 else max_results
  { self with max_results := some max_results }

/-- `ChannelList::on_behalf_of_content_owner` setter
(channels.rs lines 223-226). -/
def ChannelList.set_on_behalf_of_content_owner (self : ChannelList)
    (on_behalf_of_content_owner : String) : ChannelList :=
  { self with on_behalf_of_content_owner := some on_behalf_of_content_owner }

/-- The `vec![...]` of selector presence flags built at the start of the
filter check (channels.rs lines 73-78), in declaration order. -/
def ChannelList.selectorFlags (self : ChannelList) : List Bool :=
  [self.for_username.isSome, self.id.isSome,
   self.managed_by_me.isSome, self.mine.isSome]

/-- The selector names, in the order the `match i` arms list them
(channels.rs lines 115-121 and search.rs lines 114-119 use the same
pattern). -/
def channelFilterNames : List String :=
  ["for_username", "id", "managed_by_me", "mine"]

/-- The name list built for an `IncompatibleParameters` message
(channels.rs lines 111-123, search.rs lines 110-121): the already
filtered flag list is enumerated, filtered again (a no-op, every element
is `true`), and each position is mapped to the name at that index — the
indices are positions in the *filtered* list, not in the original
declaration list. -/
def incompatList (filters : List Bool) (names : List String) : List String :=
  (filters.enum.filter (fun p => p.2)).map (fun p => names.getD p.1 "")

/-- `ChannelList::request` (channels.rs lines 60-163) up to the network
call: the validated query map is returned instead of being sent. -/
def ChannelList.request (self : ChannelList) (apiKey : String) :
    Except BuilderErrorKind (List (String × String)) :=
  let params := insertQueryParameter [] "key" (some apiKey)
  let params := insertQueryParameters params "part"
    (some (self.part.map ChannelPart.toWire))
  let filters := self.selectorFlags.filter (fun v => v)
  let count := filters.length
  if count = 1 then
    let params := match self.for_username with
      | some for_username =>
        insertQueryParameter params "forUsername" (some for_username)
      | none => params
    let params := match self.id with
      | some id => insertQueryParameter params "id" (some id)
      | none => params
    if self.managed_by_me.isSome then
      .error (.authorizationRequired
        "The request uses the `managed_by_me` parameter but is not properly authorized")
    else if self.mine.isSome then
      .error (.authorizationRequired
        "The request uses the `mine` parameter but is not properly authorized")
    else
      let params := insertQueryParameter params "hl" self.hl
      let params := insertQueryParameter params "maxResults"
        (self.max_results.map toString)
      let params := insertQueryParameter params "pageToken" self.page_token
      match self.on_behalf_of_content_owner with
      | some on_behalf_of_content_owner =>
        if ¬ on_behalf_of_content_owner = "" then
          .error (.authorizationRequired
            "The request uses the `on_behalf_of_content_owner` parameter but is not properly authorized")
        else
          .ok params
      | none => .ok params
  else if count > 1 then
    .error (.incompatibleParameters
      ("Incompatible parameters specified in the request: " ++
        String.intercalate ", " (incompatList filters channelFilterNames)))
  else
    .error (.missingRequiredParameter
      "No filter selected. Expected one of: for_username, id, managed_by_me, mine")

/-! ## Videos endpoint (`videos.rs`)

This revision of the crate uses an earlier error enum whose variants are
referenced in `videos.rs` as `Error::InvalidParameter` and
`Error::NotAuthorized`; only those two nullary variants are exercised by
`VideoList::request`. -/

/-- The error variants referenced by `videos.rs` (lines 86, 92, 98, 101,
112). -/
inductive VideosError where
  | invalidParameter
  | notAuthorized
deriving DecidableEq, Repr

/-- `videos::Part` (videos.rs lines 230-256). -/
inductive VideoPart where
  | contentDetails | fileDetails | id | liveStreamingDetails | localizations
  | player | processingDetails | recordingDetails | snippet | statistics
  | status | suggestions | topicDetails
deriving DecidableEq, Repr

/-- `impl Display for Part` (videos.rs lines 258-277). -/
def VideoPart.toWire : VideoPart → String
  | .contentDetails => "contentDetails"
  | .fileDetails => "fileDetails"
  | .id => "id"
  | .liveStreamingDetails => "liveStreamingDetails"
  | .localizations => "localizations"
  | .player => "player"
  | .processingDetails => "processingDetails"
  | .recordingDetails => "recordingDetails"
  | .snippet => "snippet"
  | .statistics => "statistics"
  | .status => "status"
  | .suggestions => "suggestions"
  | .topicDetails => "topicDetails"

/-- `videos::Chart` (videos.rs lines 279-282). -/
inductive Chart where
  | mostPopular
deriving DecidableEq, Repr

/-- `impl Display for Chart` (videos.rs lines 284-291). -/
def Chart.toWire : Chart → String
  | .mostPopular => "mostPopular"

/-- `videos::MyRating` (videos.rs lines 293-299). -/
inductive MyRating where
  | dislike
  | like
deriving DecidableEq, Repr

/-- `impl Display for MyRating` (videos.rs lines 301-309). -/
def MyRating.toWire : MyRating → String
  | .dislike => "dislike"
  | .like => "like"

/-- The parameter state of `VideoList` (videos.rs lines 27-47). -/
structure VideoList where
  part : List VideoPart
  chart : Option Chart := none
  id : Option (List String) := none
  my_rating : Option MyRating := none
  hl : Option String := none
  max_height : Option Nat := none
  max_results : Option Nat := none
  max_width : Option Nat := none
  on_behalf_of_content_owner : Option String := none
  page_token : Option String := none
  region_code : Option String := none
  video_category_id : Option String := none
deriving DecidableEq, Repr

/-- `VideoList::new` (videos.rs lines 131-152). -/
def VideoList.new (part : List VideoPart) : VideoList :=
  { part := if part.isEmpty then [VideoPart.id] else part }

/-- The optional-parameter tail of `VideoList::request`
(videos.rs lines 105-127). -/
def VideoList.optionalSection (self : VideoList)
    (params : List (String × String)) :
    Except VideosError (List (String × String)) :=
  let params := insertQueryParameter params "hl" self.hl
  let params := insertQueryParameter params "maxHeight"
    (self.max_height.map toString)
  let params := insertQueryParameter params "maxResults"
    (self.max_results.map toString)
  let params := insertQueryParameter params "maxWidth"
    (self.max_width.map toString)
  if self.on_behalf_of_content_owner.isSome then
    .error .notAuthorized
  else
    let params := insertQueryParameter params "pageToken" self.page_token
    let params := insertQueryParameter params "regionCode" self.region_code
    .ok params

/-- `VideoList::request` (videos.rs lines 57-127) up to the network call.
Both the zero-selector and the multi-selector case return the bare
`InvalidParameter` variant (lines 95-103). -/
def VideoList.request (self : VideoList) (apiKey : String) :
    Except VideosError (List (String × String)) :=
  let params := insertQueryParameter [] "key" (some apiKey)
  let params := insertQueryParameters params "part"
    (some (self.part.map VideoPart.toWire))
  let filters :=
    ([self.chart.isSome, self.id.isSome, self.my_rating.isSome].filter
      (fun x => x)).length
  if filters = 1 then
    let params := match self.chart with
      | some chart =>
        let params := insertQueryParameter params "chart" (some chart.toWire)
        insertQueryParameter params "videoCategoryId" self.video_category_id
      | none => params
    match self.id with
    | some id =>
      if id.isEmpty then
        .error .invalidParameter
      else
        let params := insertQueryParameters params "id" (some id)
        if self.my_rating.isSome then
          .error .notAuthorized
        else
          self.optionalSection params
    | none =>
      if self.my_rating.isSome then
        .error .notAuthorized
      else
        self.optionalSection params
  else if filters > 1 then
    .error .invalidParameter
  else
    .error .invalidParameter

/-! ## Search endpoint (`search.rs`) -/

/-- `search::Part` (search.rs lines 533-536). -/
inductive SearchPart where
  | id
  | snippet
deriving DecidableEq, Repr

/-- `impl Display for Part` (search.rs lines 538-547). -/
def SearchPart.toWire : SearchPart → String
  | .id => "id"
  | .snippet => "snippet"

/-- `search::ChannelType` (search.rs lines 550-557). -/
inductive SearchChannelType where
  | any
  | show
deriving DecidableEq, Repr

/-- `impl Display for ChannelType` (search.rs lines 559-568). -/
def SearchChannelType.toWire : SearchChannelType → String
  | .any => "any"
  | .show => "show"

/-- `search::EventType` (search.rs lines 572-581). -/
inductive EventType where
  | completed
  | live
  | upcoming
deriving DecidableEq, Repr

/-- `impl Display for EventType` (search.rs lines 583-593). -/
def EventType.toWire : EventType → String
  | .completed => "completed"
  | .live => "live"
  | .upcoming => "upcoming"

/-- `search::Order` (search.rs lines 595-614). -/
inductive SearchOrder where
  | date | rating | relevance | title | videoCount | viewCount
deriving DecidableEq, Repr

/-- `impl Display for Order` (search.rs lines 616-629). -/
def SearchOrder.toWire : SearchOrder → String
  | .date => "date"
  | .rating => "rating"
  | .relevance => "relevance"
  | .title => "title"
  | .videoCount => "videoCount"
  | .viewCount => "viewCount"

/-- `search::SafeSearch` (search.rs lines 631-643). -/
inductive SafeSearch where
  | moderate
  | none
  | strict
deriving DecidableEq, Repr

/-- `impl Display for SafeSearch` (search.rs lines 645-655). -/
def SafeSearch.toWire : SafeSearch → String
  | .moderate => "moderate"
  | .none => "none"
  | .strict => "strict"

/-- `search::ResourceType` (search.rs lines 659-666). -/
inductive ResourceType where
  | channel
  | playlist
  | video
deriving DecidableEq, Repr, BEq

/-- `impl Display for ResourceType` (search.rs lines 668-678). -/
def ResourceType.toWire : ResourceType → String
  | .channel => "channel"
  | .playlist => "playlist"
  | .video => "video"

/-- `search::VideoCaption` (search.rs lines 680-689). -/
inductive VideoCaption where
  | any
  | closedCaption
  | none
deriving DecidableEq, Repr

/-- `impl Display for VideoCaption` (search.rs lines 691-701). -/
def VideoCaption.toWire : VideoCaption → String
  | .any => "any"
  | .closedCaption => "closedCaption"
  | .none => "none"

/-- `search::VideoDefinition` (search.rs lines 703-712). -/
inductive VideoDefinition where
  | any
  | high
  | standard
deriving DecidableEq, Repr

/-- `impl Display for VideoDefinition` (search.rs lines 714-724). -/
def VideoDefinition.toWire : VideoDefinition → String
  | .any => "any"
  | .high => "high"
  | .standard => "standard"

/-- `search::VideoDimension` (search.rs lines 726-735). -/
inductive VideoDimension where
  | any
  | twoDimensional
  | threeDimensional
deriving DecidableEq, Repr

/-- `impl Display for VideoDimension` (search.rs lines 737-747). -/
def VideoDimension.toWire : VideoDimension → String
  | .any => "any"
  | .twoDimensional => "2d"
  | .threeDimensional => "3d"

/-- `search::VideoDuration` (search.rs lines 749-761). -/
inductive VideoDuration where
  | any
  | short
  | medium
  | long
deriving DecidableEq, Repr

/-- `impl Display for VideoDuration` (search.rs lines 763-774). -/
def VideoDuration.toWire : VideoDuration → String
  | .any => "any"
  | .short => "short"
  | .medium => "medium"
  | .long => "long"

/-- `search::VideoEmbeddable` (search.rs lines 776-782); the Rust variant
`True` is rendered here as `isTrue`. -/
inductive VideoEmbeddable where
  | any
  | isTrue
deriving DecidableEq, Repr

/-- `impl Display for VideoEmbeddable` (search.rs lines 784-793). -/
def VideoEmbeddable.toWire : VideoEmbeddable → String
  | .any => "any"
  | .isTrue => "true"

/-- `search::VideoLicense` (search.rs lines 795-805). -/
inductive VideoLicense where
  | any
  | creativeCommon
  | youtube
deriving DecidableEq, Repr

/-- `impl Display for VideoLicense` (search.rs lines 807-817). -/
def VideoLicense.toWire : VideoLicense → String
  | .any => "any"
  | .creativeCommon => "creativeCommon"
  | .youtube => "youtube"

/-- `search::VideoPaidProductPlacement` (search.rs lines 819-825). -/
inductive VideoPaidProductPlacement where
  | any
  | isTrue
deriving DecidableEq, Repr

/-- `impl Display for VideoPaidProductPlacement`
(search.rs lines 827-836). -/
def VideoPaidProductPlacement.toWire : VideoPaidProductPlacement → String
  | .any => "any"
  | .isTrue => "true"

/-- `search::VideoSyndicated` (search.rs lines 838-844). -/
inductive VideoSyndicated where
  | any
  | isTrue
deriving DecidableEq, Repr

/-- `impl Display for VideoSyndicated` (search.rs lines 846-855). -/
def VideoSyndicated.toWire : VideoSyndicated → String
  | .any => "any"
  | .isTrue => "true"

/-- `search::VideoType` (search.rs lines 857-866). -/
inductive SearchVideoType where
  | any
  | episode
  | movie
deriving DecidableEq, Repr

/-- `impl Display for VideoType` (search.rs lines 868-878). -/
def SearchVideoType.toWire : SearchVideoType → String
  | .any => "any"
  | .episode => "episode"
  | .movie => "movie"

/-- The parameter state of `SearchList` (search.rs lines 30-71).
`published_after`/`published_before` hold the RFC 3339 rendering produced
by `insert_date_time_query_parameter` (never empty when present). -/
structure SearchList where
  part : List SearchPart
  for_content_owner : Option Bool := none
  for_developer : Option Bool := none
  for_mine : Option Bool := none
  channel_id : Option String := none
  channel_type : Option SearchChannelType := none
  event_type : Option EventType := none
  location : Option String := none
  location_radius : Option String := none
  max_results : Option Nat := none
  on_behalf_of_content_owner : Option String := none
  order : Option SearchOrder := none
  page_token : Option String := none
  published_after : Option String := none
  published_before : Option String := none
  q : Option String := none
  region_code : Option String := none
  relevance_language : Option String := none
  safe_search : Option SafeSearch := none
  topic_id : Option String := none
  resource_type : List ResourceType :=
    [ResourceType.channel, ResourceType.playlist, ResourceType.video]
  video_caption : Option VideoCaption := none
  video_category_id : Option String := none
  video_definition : Option VideoDefinition := none
  video_dimension : Option VideoDimension := none
  video_duration : Option VideoDuration := none
  video_embeddable : Option VideoEmbeddable := none
  video_license : Option VideoLicense := none
  video_paid_product_placement : Option VideoPaidProductPlacement := none
  video_syndicated : Option VideoSyndicated := none
  video_type : Option SearchVideoType := none
deriving DecidableEq, Repr

/-- `SearchList::new` (search.rs lines 327-371). -/
def SearchList.new (part : List SearchPart) : SearchList :=
  { part := if part.isEmpty then [SearchPart.snippet] else part }

/-- `SearchList::max_results` setter (search.rs lines 418-422): clamps
the page size to at most 50 before storing it. -/
def SearchList.set_max_results (self : SearchList) (max_results : Nat) :
    SearchList :=
  let max_results := if max_results > 50 then 50 else max_results
  { self with max_results := some max_results }

/-- `type_must_set_be_video` (search.rs lines 957-966). -/
def typeMustSetBeVideo (parameter : String) : BuilderErrorKind :=
  .invalidParameter
    ("Request contains an invalid argument: " ++
      ("parameter `type` must be set to `video` when using `" ++ parameter ++ "`"))

/-- The `InvalidParameter` message produced by the `location` /
`location_radius` dependency check (search.rs lines 197-204). -/
def locationRadiusMsg : String :=
  "Request contains an invalid argument: " ++
    "parameter `location_radius` must be specified when using `location`"

/-- One `video`-only-filter guard of `SearchList::request`: the pattern
`if <param>.is_some() { if !has_video_type_only { return Err(...) } }`
repeated at search.rs lines 184-190, 191-195 and 222-312. -/
def checkVideoFilter (isSet : Bool) (parameter : String)
    (hasVideoTypeOnly : Bool) : Except BuilderErrorKind Unit :=
  if isSet then
    if !hasVideoTypeOnly then .error (typeMustSetBeVideo parameter)
    else .ok ()
  else .ok ()

/-- The `location_radius` companion check nested in the `location` block
(search.rs lines 196-204): note the Rust condition is
`!self.location_radius.is_none()`, so the error fires precisely when the
radius IS present. -/
def checkLocationRadius (location location_radius : Option String) :
    Except BuilderErrorKind Unit :=
  if location.isSome then
    if !location_radius.isNone then
      .error (.invalidParameter locationRadiusMsg)
    else .ok ()
  else .ok ()

/-- Sequencing of an early-return check with the rest of the request
body. -/
def step {α : Type} (check : Except BuilderErrorKind Unit)
    (rest : Except BuilderErrorKind α) : Except BuilderErrorKind α :=
  match check with
  | .error e => .error e
  | .ok _ => rest

/-- The selector presence flags of `SearchList` (search.rs lines 99-105),
in declaration order. -/
def SearchList.selectorFlags (self : SearchList) : List Bool :=
  [self.for_content_owner.isSome, self.for_developer.isSome,
   self.for_mine.isSome]

/-- The search selector names in `match i` order
(search.rs lines 114-119). -/
def searchFilterNames : List String :=
  ["for_content_owner", "for_developer", "for_mine"]

/-- The optional-parameter section of `SearchList::request`
(search.rs lines 181-323).  Inserts guarded by `if <param>.is_some()` in
the Rust code are written unconditionally here: `insertQueryParameter`
with a `none` value is the identity, so the two forms agree. -/
def SearchList.optionalSection (self : SearchList) (hasVideoTypeOnly : Bool)
    (params : List (String × String)) :
    Except BuilderErrorKind (List (String × String)) :=
  let params := insertQueryParameter params "channelId" self.channel_id
  let params := insertQueryParameter params "channelType"
    (self.channel_type.map SearchChannelType.toWire)
  step (checkVideoFilter self.event_type.isSome "event_type" hasVideoTypeOnly) <|
  let params := insertQueryParameter params "eventType"
    (self.event_type.map EventType.toWire)
  step (checkVideoFilter self.location.isSome "location" hasVideoTypeOnly) <|
  step (checkLocationRadius self.location self.location_radius) <|
  let params := insertQueryParameter params "location" self.location
  let params := insertQueryParameter params "maxResults"
    (self.max_results.map toString)
  let params := insertQueryParameter params "order"
    (self.order.map SearchOrder.toWire)
  let params := insertQueryParameter params "pageToken" self.page_token
  let params := insertQueryParameter params "publishedAfter"
    self.published_after
  let params := insertQueryParameter params "publishedBefore"
    self.published_before
  let params := insertQueryParameter params "q" self.q
  let params := insertQueryParameter params "regionCode" self.region_code
  let params := insertQueryParameter params "relevanceLanguage"
    self.relevance_language
  let params := insertQueryParameter params "safeSearch"
    (self.safe_search.map SafeSearch.toWire)
  let params := insertQueryParameter params "topicId" self.topic_id
  let params := insertQueryParameters params "type"
    (some (self.resource_type.map ResourceType.toWire))
  step (checkVideoFilter self.video_caption.isSome "video_caption"
    hasVideoTypeOnly) <|
  let params := insertQueryParameter params "videoCaption"
    (self.video_caption.map VideoCaption.toWire)
  step (checkVideoFilter self.video_category_id.isSome "video_category_id"
    hasVideoTypeOnly) <|
  let params := insertQueryParameter params "videoCategoryId"
    self.video_category_id
  step (checkVideoFilter self.video_definition.isSome "video_definition"
    hasVideoTypeOnly) <|
  let params := insertQueryParameter params "videoDefinition"
    (self.video_definition.map VideoDefinition.toWire)
  step (checkVideoFilter self.video_dimension.isSome "video_dimension"
    hasVideoTypeOnly) <|
  let params := insertQueryParameter params "videoDimension"
    (self.video_dimension.map VideoDimension.toWire)
  step (checkVideoFilter self.video_duration.isSome "video_duration"
    hasVideoTypeOnly) <|
  let params := insertQueryParameter params "videoDuration"
    (self.video_duration.map VideoDuration.toWire)
  step (checkVideoFilter self.video_embeddable.isSome "video_embeddable"
    hasVideoTypeOnly) <|
  let params := insertQueryParameter params "videoEmbeddable"
    (self.video_embeddable.map VideoEmbeddable.toWire)
  step (checkVideoFilter self.video_license.isSome "video_license"
    hasVideoTypeOnly) <|
  let params := insertQueryParameter params "videoLicense"
    (self.video_license.map VideoLicense.toWire)
  step (checkVideoFilter self.video_paid_product_placement.isSome
    "video_paid_product_placement" hasVideoTypeOnly) <|
  let params := insertQueryParameter params "videoPaidProductPlacement"
    (self.video_paid_product_placement.map VideoPaidProductPlacement.toWire)
  step (checkVideoFilter self.video_syndicated.isSome "video_syndicated"
    hasVideoTypeOnly) <|
  let params := insertQueryParameter params "videoSyndicated"
    (self.video_syndicated.map VideoSyndicated.toWire)
  step (checkVideoFilter self.video_type.isSome "video_type"
    hasVideoTypeOnly) <|
  let params := insertQueryParameter params "videoType"
    (self.video_type.map SearchVideoType.toWire)
  .ok params

/-- `SearchList::request` (search.rs lines 84-323) up to the network
call. -/
def SearchList.request (self : SearchList) (apiKey : String) :
    Except BuilderErrorKind (List (String × String)) :=
  let params := insertQueryParameter [] "key" (some apiKey)
  let params := insertQueryParameters params "part"
    (some (self.part.map SearchPart.toWire))
  let hasVideoTypeOnly :=
    self.resource_type.length == 1 &&
      (self.resource_type.get? 0 == some ResourceType.video)
  let filters := self.selectorFlags.filter (fun x => x)
  let count := filters.length
  if count > 1 then
    .error (.incompatibleParameters
      ("Incompatible parameters specified in the request: " ++
        String.intercalate ", " (incompatList filters searchFilterNames)))
  else if count = 1 then
    if self.for_content_owner.isSome then
      .error (.authorizationRequired
        "The request uses the `for_content_owner` parameter but is not properly authorized")
    else if self.for_developer.isSome then
      .error (.authorizationRequired
        "The request uses the `for_developer` parameter but is not properly authorized")
    else if self.for_mine.isSome then
      .error (.authorizationRequired
        "The request uses the `for_mine` parameter but is not properly authorized")
    else
      self.optionalSection hasVideoTypeOnly params
  else
    self.optionalSection hasVideoTypeOnly params

/-- The first set `video`-only filter in the order `SearchList::request`
checks them (search.rs lines 184, 191, 222, 230, 237, 248, 259, 266,
277, 284, 295, 306). -/
def SearchList.firstVideoOnlyFilter (self : SearchList) : Option String :=
  if self.event_type.isSome then some "event_type"
  else if self.location.isSome then some "location"
  else if self.video_caption.isSome then some "video_caption"
  else if self.video_category_id.isSome then some "video_category_id"
  else if self.video_definition.isSome then some "video_definition"
  else if self.video_dimension.isSome then some "video_dimension"
  else if self.video_duration.isSome then some "video_duration"
  else if self.video_embeddable.isSome then some "video_embeddable"
  else if self.video_license.isSome then some "video_license"
  else if self.video_paid_product_placement.isSome then
    some "video_paid_product_placement"
  else if self.video_syndicated.isSome then some "video_syndicated"
  else if self.video_type.isSome then some "video_type"
  else none

/-- The names of the `video`-only search filters. -/
def videoOnlyFilterNames : List String :=
  ["event_type", "location", "video_caption", "video_category_id",
   "video_definition", "video_dimension", "video_duration",
   "video_embeddable", "video_license", "video_paid_product_placement",
   "video_syndicated", "video_type"]

/-! ## Helper lemmas -/

lemma checkVideoFilter_of_videoOnly (b : Bool) (n : String) :
    checkVideoFilter b n true = .ok () := by
  cases b <;> simp [checkVideoFilter]

lemma checkVideoFilter_eq_error (b : Bool) (n : String) (h : Bool)
    (e : BuilderErrorKind) :
    checkVideoFilter b n h = .error e ↔
      b = true ∧ h = false ∧ e = typeMustSetBeVideo n := by
  cases b <;> cases h <;> simp [checkVideoFilter, eq_comm]

lemma checkLocationRadius_eq_error (loc rad : Option String)
    (e : BuilderErrorKind) :
    checkLocationRadius loc rad = .error e ↔
      loc.isSome = true ∧ rad.isSome = true ∧
        e = .invalidParameter locationRadiusMsg := by
  cases loc <;> cases rad <;> simp [checkLocationRadius, eq_comm]

lemma step_eq_error {α : Type} (c : Except BuilderErrorKind Unit)
    (r : Except BuilderErrorKind α) (e : BuilderErrorKind) :
    step c r = .error e ↔ c = .error e ∨ (c = .ok () ∧ r = .error e) := by
  cases c with
  | error e0 => simp [step]
  | ok u => cases u; simp [step]

lemma step_isOk {α : Type} (c : Except BuilderErrorKind Unit)
    (r1 r2 : Except BuilderErrorKind α) (h : r1.isOk = r2.isOk) :
    (step c r1).isOk = (step c r2).isOk := by
  cases c <;> simp [step, h]

/-- No instantiation of the `type`-must-be-`video` message coincides with
the `location_radius` dependency message: the two differ inside their
shared prefix, before the parameter name is appended. -/
lemma tmsv_ne_radius (f : String) :
    ¬ typeMustSetBeVideo f = BuilderErrorKind.invalidParameter locationRadiusMsg := by
  intro h
  unfold typeMustSetBeVideo locationRadiusMsg at h
  injection h with h
  have hd := congrArg String.data h
  rw [String.data_append, String.data_append, String.data_append,
    String.data_append] at hd
  have hd2 := List.append_cancel_left hd
  have hlen :
      11 < "parameter `type` must be set to `video` when using `".data.length := by
    decide
  have hc := congrArg (fun l : List Char => l.get? 11) hd2
  simp only at hc
  rw [List.get?_append (by
      rw [List.length_append]
      exact Nat.lt_of_lt_of_le hlen (Nat.le_add_right _ _)),
    List.get?_append hlen] at hc
  revert hc
  decide

lemma radius_ne_tmsv (f : String) :
    ¬ BuilderErrorKind.invalidParameter locationRadiusMsg =
      typeMustSetBeVideo f :=
  fun h => tmsv_ne_radius f h.symm

lemma auth_ne_tmsv (m f : String) :
    ¬ BuilderErrorKind.authorizationRequired m = typeMustSetBeVideo f := by
  simp [typeMustSetBeVideo]

lemma incompat_ne_tmsv (m f : String) :
    ¬ BuilderErrorKind.incompatibleParameters m = typeMustSetBeVideo f := by
  simp [typeMustSetBeVideo]

/-- With no selector set, the search request reduces to its
optional-parameter section. -/
lemma searchRequest_noSelectors (cfg : SearchList) (key : String)
    (h1 : cfg.for_content_owner = none) (h2 : cfg.for_developer = none)
    (h3 : cfg.for_mine = none) :
    cfg.request key =
      cfg.optionalSection
        (cfg.resource_type.length == 1 &&
          (cfg.resource_type.get? 0 == some ResourceType.video))
        (insertQueryParameters (insertQueryParameter [] "key" (some key))
          "part" (some (cfg.part.map SearchPart.toWire))) := by
  simp [SearchList.request, SearchList.selectorFlags, h1, h2, h3]

lemma mem_mapKeys_mapInsert (m : List (String × String)) (key v k : String) :
    k ∈ mapKeys (mapInsert m key v) ↔ k = key ∨ k ∈ mapKeys m := by
  induction m with
  | nil => simp [mapInsert, mapKeys]
  | cons p rest ih =>
    by_cases h : p.1 = key
    · simp [mapInsert, mapKeys, h] at ih ⊢
    · simp only [mapInsert]
      rw [if_neg h]
      simp [mapKeys] at ih ⊢
      rw [ih]
      tauto

lemma not_mem_mapKeys_insertQueryParameter (m : List (String × String))
    (key : String) (v : Option String) (k : String) (h1 : ¬ k = key)
    (h2 : ¬ k ∈ mapKeys m) : ¬ k ∈ mapKeys (insertQueryParameter m key v) := by
  cases v with
  | none => exact h2
  | some s =>
    simp only [insertQueryParameter]
    split
    · exact h2
    · simp [mem_mapKeys_mapInsert, h1, h2]

lemma not_mem_mapKeys_insertQueryParameters (m : List (String × String))
    (key : String) (v : Option (List String)) (k : String) (h1 : ¬ k = key)
    (h2 : ¬ k ∈ mapKeys m) : ¬ k ∈ mapKeys (insertQueryParameters m key v) := by
  cases v with
  | none => exact h2
  | some vs =>
    simp only [insertQueryParameters]
    split
    · exact h2
    · simp [mem_mapKeys_mapInsert, h1, h2]

/-- Success or failure of the optional-parameter section of the search
request does not depend on the accumulated parameter map or on the stored
`max_results` value. -/
lemma searchOptionalSection_isOk_indep (b : SearchList) (v w : Option Nat)
    (h : Bool) (p q : List (String × String)) :
    (SearchList.optionalSection { b with max_results := v } h p).isOk =
      (SearchList.optionalSection { b with max_results := w } h q).isOk := by
  simp only [SearchList.optionalSection]
  apply step_isOk
  apply step_isOk
  apply step_isOk
  apply step_isOk
  apply step_isOk
  apply step_isOk
  apply step_isOk
  apply step_isOk
  apply step_isOk
  apply step_isOk
  apply step_isOk
  apply step_isOk
  apply step_isOk
  rfl

/-- Success or failure of the channels request does not depend on the
stored `max_results` value. -/
lemma channelRequest_isOk_indep (b : ChannelList) (v w : Option Nat)
    (key : String) :
    (ChannelList.request { b with max_results := v } key).isOk =
      (ChannelList.request { b with max_results := w } key).isOk := by
  simp only [ChannelList.request, ChannelList.selectorFlags]
  cases hfu : b.for_username <;> cases hid : b.id <;>
    cases hmm : b.managed_by_me <;> cases hmi : b.mine <;>
      cases hob : b.on_behalf_of_content_owner <;>
        simp [hfu, hid, hmm, hmi, hob, Except.isOk, Except.toBool, apply_ite]
  all_goals (rename_i s; by_cases hs : s = "" <;> simp [hs])

/-- Success or failure of the search request does not depend on the
stored `max_results` value. -/
lemma searchRequest_isOk_indep (b : SearchList) (v w : Option Nat)
    (key : String) :
    (SearchList.request { b with max_results := v } key).isOk =
      (SearchList.request { b with max_results := w } key).isOk := by
  simp only [SearchList.request, SearchList.selectorFlags]
  cases hfc : b.for_content_owner <;> cases hfd : b.for_developer <;>
    cases hfm : b.for_mine <;>
      simp [hfc, hfd, hfm, Except.isOk, Except.toBool]
  all_goals exact searchOptionalSection_isOk_indep b v w _ _ _

/-! ## Claims -/

set_option maxHeartbeats 2000000 in
/-- C4: when a non-2xx upstream error payload is rendered, `renderDetails`
drops the look-ahead record — with two detail records the second never
appears in the output, contradicting the claim that every detail record
is rendered.  At the concrete failing input the payload's second record
(distinguished by its message `SECOND_DETAIL`) is absent from the
rendered string, while the status code, status and top-level message are
reproduced verbatim. -/
theorem C4_detail_records_dropped :
    (∀ d1 d2 : YouTubeErrorDetail,
      renderDetails [d1, d2] = d1.render ++ ", ") ∧
    YouTubeErrorRepr.render
      { code := "400 Bad Request",
        message := "Request contains an invalid argument.",
        errors :=
          [{ message := "FIRST_DETAIL", domain := "global",
             reason := "badRequest", location := none,
             location_type := none },
           { message := "SECOND_DETAIL", domain := "usageLimits",
             reason := "quotaExceeded", location := none,
             location_type := none }],
        status := some "INVALID_ARGUMENT" } =
      "400 Bad Request status: \"INVALID_ARGUMENT\" message: \"Request contains an invalid argument.\" [message: \"FIRST_DETAIL\", domain: \"global\", reason: \"badRequest\", ]" ∧
    containsSeq "SECOND_DETAIL".toList
      ("400 Bad Request status: \"INVALID_ARGUMENT\" message: \"Request contains an invalid argument.\" [message: \"FIRST_DETAIL\", domain: \"global\", reason: \"badRequest\", ]").toList = false := by
  refine ⟨fun d1 d2 => by simp [renderDetails, String.append_empty],
    by with_unfolding_all rfl, by decide⟩

/-- C5: `replaceSensitiveQueryParams` never depends on the value carried
by the `key` query parameter (conjunct 1: the output is unchanged when
that value is replaced by the placeholder, so the original key value
cannot leak), renders the query entries in ascending lexicographic order
(conjuncts 2 and 3), and is invariant under permutation of the input
pairs (conjunct 4).  The concrete conjuncts replay the spec's example:
`key=SECRET123` renders as `key=[API_KEY]`, `SECRET123` does not occur in
the output, and the entries come out sorted. -/
theorem C5_redaction_and_sorted_order :
    (∀ (path : String) (pairs : List (String × String)),
      replaceSensitiveQueryParams path pairs =
        replaceSensitiveQueryParams path
          (pairs.map (fun p => if p.1 = "key" then (p.1, "[API_KEY]") else p))) ∧
    (∀ pairs : List (String × String),
      List.Sorted (· ≤ ·) (sortedQueryEntries pairs)) ∧
    (∀ (path : String) (pairs : List (String × String)),
      replaceSensitiveQueryParams path pairs =
        path ++ "?" ++ String.intercalate "&" (sortedQueryEntries pairs)) ∧
    (∀ (path : String) (pairs1 pairs2 : List (String × String)),
      pairs1.Perm pairs2 →
        replaceSensitiveQueryParams path pairs1 =
          replaceSensitiveQueryParams path pairs2) ∧
    replaceSensitiveQueryParams "/youtube/v3/channels"
      [("part", "snippet"), ("id", "UC_x5XG1OV2P6uZZ5FSM9Ttw"),
       ("key", "SECRET123")] =
      "/youtube/v3/channels?id=UC_x5XG1OV2P6uZZ5FSM9Ttw&key=[API_KEY]&part=snippet" ∧
    containsSeq "SECRET123".toList
      "/youtube/v3/channels?id=UC_x5XG1OV2P6uZZ5FSM9Ttw&key=[API_KEY]&part=snippet".toList = false ∧
    containsSeq "key=[API_KEY]".toList
      "/youtube/v3/channels?id=UC_x5XG1OV2P6uZZ5FSM9Ttw&key=[API_KEY]&part=snippet".toList = true := by
  refine ⟨?_, ?_, ?_, ?_, by with_unfolding_all rfl, by decide, by decide⟩
  · intro path pairs
    simp only [replaceSensitiveQueryParams, List.map_map]
    rw [List.map_congr_left (l := pairs)
      (g := (fun p : String × String =>
        if ¬ p.1 = "key" then p.1 ++ "=" ++ p.2 else p.1 ++ "=" ++ "[API_KEY]") ∘
        (fun p : String × String =>
          if p.1 = "key" then (p.1, "[API_KEY]") else p))
      (fun p _ => by by_cases h : p.1 = "key" <;> simp [h])]
  · intro pairs
    exact List.sorted_insertionSort _ _
  · intro path pairs
    rfl
  · intro path pairs1 pairs2 hp
    simp only [replaceSensitiveQueryParams]
    congr 2
    apply List.eq_of_perm_of_sorted (r := fun a b : String => a ≤ b)
    · exact ((List.perm_insertionSort _ _).trans (hp.map _)).trans
        (List.perm_insertionSort _ _).symm
    · exact List.sorted_insertionSort _ _
    · exact List.sorted_insertionSort _ _

/-- C8: the `max_results` setters of the channels and search builders
store `min(value, 50)` (conjuncts 1 and 2); an input of 1000 yields an
emitted `maxResults=50` on an otherwise valid request (conjunct 3); and
the stored page size never decides between success and failure of
finalization, so an out-of-range page size never produces an error
(conjuncts 4 and 5). -/
theorem C8_max_results_clamped :
    (∀ (b : ChannelList) (v : Nat),
      (b.set_max_results v).max_results = some (min v 50)) ∧
    (∀ (b : SearchList) (v : Nat),
      (b.set_max_results v).max_results = some (min v 50)) ∧
    (ChannelList.request
        ((((ChannelList.new [ChannelPart.snippet]).set_id "abc").set_max_results
          1000)) "KEY" =
      .ok [("key", "KEY"), ("part", "snippet"), ("id", "abc"),
        ("maxResults", "50")]) ∧
    (∀ (b : ChannelList) (v w : Option Nat) (key : String),
      (ChannelList.request { b with max_results := v } key).isOk =
        (ChannelList.request { b with max_results := w } key).isOk) ∧
    (∀ (b : SearchList) (v w : Option Nat) (key : String),
      (SearchList.request { b with max_results := v } key).isOk =
        (SearchList.request { b with max_results := w } key).isOk) := by
  refine ⟨?_, ?_, by rfl, channelRequest_isOk_indep, searchRequest_isOk_indep⟩
  · intro b v
    simp only [ChannelList.set_max_results, Option.some.injEq]
    split <;> omega
  · intro b v
    simp only [SearchList.set_max_results, Option.some.injEq]
    split <;> omega

/-- C5 witness: the permutation-invariance conjunct applied at a concrete
pair of permuted query-pair lists. -/
theorem C5_witness :
    replaceSensitiveQueryParams "/p" [("b", "2"), ("key", "S"), ("a", "1")] =
      replaceSensitiveQueryParams "/p"
        [("a", "1"), ("b", "2"), ("key", "S")] := by
  exact C5_redaction_and_sorted_order.2.2.2.1 "/p"
    [("b", "2"), ("key", "S"), ("a", "1")]
    [("a", "1"), ("b", "2"), ("key", "S")] (by decide)

/-- C9: constructing any of the three list builders with an empty part
list substitutes a non-empty default — `[Id]` for channels and videos,
`[Snippet]` for search — and a non-empty argument is stored as given, so
a freshly constructed builder always carries at least one part value. -/
theorem C9_default_parts_nonempty :
    (∀ part, (ChannelList.new part).part =
      if part.isEmpty then [ChannelPart.id] else part) ∧
    (∀ part, (VideoList.new part).part =
      if part.isEmpty then [VideoPart.id] else part) ∧
    (∀ part, (SearchList.new part).part =
      if part.isEmpty then [SearchPart.snippet] else part) ∧
    (∀ part, ¬ (ChannelList.new part).part = []) ∧
    (∀ part, ¬ (VideoList.new part).part = []) ∧
    (∀ part, ¬ (SearchList.new part).part = []) := by
  refine ⟨fun part => rfl, fun part => rfl, fun part => rfl, ?_, ?_, ?_⟩ <;>
    (intro part; cases part <;> simp [ChannelList.new, VideoList.new,
      SearchList.new])

/-- C1 counterexample: with `managed_by_me` and `mine` set on the
channels builder, finalization reports
`Incompatible parameters specified in the request: for_username, id` —
the message names the first two selectors in declaration order, not the
two that were actually set — and the videos builder with zero selectors
fails with the bare `InvalidParameter` variant, not
`MissingRequiredParameter`. -/
theorem C1_counterexample :
    ChannelList.request
      { part := [ChannelPart.snippet], managed_by_me := some true,
        mine := some true } "KEY" =
      .error (.incompatibleParameters
        "Incompatible parameters specified in the request: for_username, id") ∧
    ¬ ChannelList.request
      { part := [ChannelPart.snippet], managed_by_me := some true,
        mine := some true } "KEY" =
      .error (.incompatibleParameters
        "Incompatible parameters specified in the request: managed_by_me, mine") ∧
    VideoList.request { part := [VideoPart.snippet] } "KEY" =
      .error .invalidParameter := by
  refine ⟨by rfl, ?_, by rfl⟩
  intro h
  rw [show ChannelList.request
      { part := [ChannelPart.snippet], managed_by_me := some true,
        mine := some true } "KEY" =
      .error (.incompatibleParameters
        "Incompatible parameters specified in the request: for_username, id")
    from by rfl] at h
  injection h with h
  injection h with h
  exact absurd h (by decide)

/-- C1 (amended): channels finalization with zero selectors yields
`MissingRequiredParameter`; with two or more selectors it yields
`IncompatibleParameters` whose message comma-joins the first `k` selector
names in declaration order, where `k` is the number of selectors set
(which coincides with the set selectors only when they form a prefix of
the declaration order); videos finalization yields the bare
`InvalidParameter` variant both with zero selectors and with two or more
selectors. -/
theorem C1_selector_arity_errors :
    (∀ (cfg : ChannelList) (key : String),
      cfg.for_username = none → cfg.id = none → cfg.managed_by_me = none →
      cfg.mine = none →
      cfg.request key = .error (.missingRequiredParameter
        "No filter selected. Expected one of: for_username, id, managed_by_me, mine")) ∧
    (∀ (cfg : ChannelList) (key : String),
      2 ≤ (cfg.selectorFlags.filter (fun v => v)).length →
      cfg.request key = .error (.incompatibleParameters
        ("Incompatible parameters specified in the request: " ++
          String.intercalate ", "
            (channelFilterNames.take
              (cfg.selectorFlags.filter (fun v => v)).length)))) ∧
    (∀ (cfg : VideoList) (key : String),
      cfg.chart = none → cfg.id = none → cfg.my_rating = none →
      cfg.request key = .error .invalidParameter) ∧
    (∀ (cfg : VideoList) (key : String),
      2 ≤ ([cfg.chart.isSome, cfg.id.isSome, cfg.my_rating.isSome].filter
        (fun x => x)).length →
      cfg.request key = .error .invalidParameter) := by
  refine ⟨?_, ?_, ?_, ?_⟩
  · intro cfg key h1 h2 h3 h4
    simp [ChannelList.request, ChannelList.selectorFlags, h1, h2, h3, h4]
  · intro cfg key h
    cases hfu : cfg.for_username <;> cases hid : cfg.id <;>
      cases hmm : cfg.managed_by_me <;> cases hmi : cfg.mine <;>
        simp_all [ChannelList.request, ChannelList.selectorFlags,
          incompatList, channelFilterNames]
    all_goals decide
  · intro cfg key h1 h2 h3
    simp [VideoList.request, h1, h2, h3]
  · intro cfg key h
    cases hc : cfg.chart <;> cases hid : cfg.id <;>
      cases hmr : cfg.my_rating <;> simp_all [VideoList.request]

/-- C1 witness: the amended statement applied at concrete builders — a
channels builder with no selector, one with `for_username` and `id` both
set, a videos builder with no selector, and one with `chart` and `id`
both set. -/
theorem C1_witness :
    ChannelList.request { part := [ChannelPart.id] } "K" =
      .error (.missingRequiredParameter
        "No filter selected. Expected one of: for_username, id, managed_by_me, mine") ∧
    ChannelList.request
      { part := [ChannelPart.id], for_username := some "u", id := some "i" }
      "K" =
      .error (.incompatibleParameters
        "Incompatible parameters specified in the request: for_username, id") ∧
    VideoList.request { part := [VideoPart.id] } "K" =
      .error .invalidParameter ∧
    VideoList.request
      { part := [VideoPart.id], chart := some Chart.mostPopular,
        id := some ["x"] } "K" = .error .invalidParameter := by
  refine ⟨C1_selector_arity_errors.1 _ _ rfl rfl rfl rfl, ?_,
    C1_selector_arity_errors.2.2.1 _ _ rfl rfl rfl,
    C1_selector_arity_errors.2.2.2 _ _ (by decide)⟩
  exact C1_selector_arity_errors.2.1
    { part := [ChannelPart.id], for_username := some "u", id := some "i" }
    "K" (by decide)

/-- C2 counterexample: a channels builder with the caller-identity-gated
`managed_by_me` set together with the `id` selector does not fail with
`AuthorizationRequired` — the mutual-exclusion check runs first and
reports `IncompatibleParameters` (naming, moreover, the unset selectors
`for_username, id`). -/
theorem C2_counterexample :
    ChannelList.request
      { part := [ChannelPart.snippet], id := some "x",
        managed_by_me := some true } "KEY" =
      .error (.incompatibleParameters
        "Incompatible parameters specified in the request: for_username, id") ∧
    ¬ ChannelList.request
      { part := [ChannelPart.snippet], id := some "x",
        managed_by_me := some true } "KEY" =
      .error (.authorizationRequired
        "The request uses the `managed_by_me` parameter but is not properly authorized") := by
  refine ⟨by rfl, ?_⟩
  intro h
  rw [show ChannelList.request
      { part := [ChannelPart.snippet], id := some "x",
        managed_by_me := some true } "KEY" =
      .error (.incompatibleParameters
        "Incompatible parameters specified in the request: for_username, id")
    from by rfl] at h
  injection h with h
  injection h

/-- C2 (amended): a caller-identity-gated parameter that is the only
member of its selector group that is set always makes finalization fail
with `AuthorizationRequired` naming it (for the videos revision: the
unnamed `NotAuthorized` variant), regardless of every other (non-selector)
parameter; when another selector of the same group is also set, the
mutual-exclusion error preempts this check. -/
theorem C2_auth_gated_selectors :
    (∀ (cfg : ChannelList) (key : String) (b : Bool),
      cfg.managed_by_me = some b → cfg.for_username = none → cfg.id = none →
      cfg.mine = none →
      cfg.request key = .error (.authorizationRequired
        "The request uses the `managed_by_me` parameter but is not properly authorized")) ∧
    (∀ (cfg : ChannelList) (key : String) (b : Bool),
      cfg.mine = some b → cfg.for_username = none → cfg.id = none →
      cfg.managed_by_me = none →
      cfg.request key = .error (.authorizationRequired
        "The request uses the `mine` parameter but is not properly authorized")) ∧
    (∀ (cfg : VideoList) (key : String) (r : MyRating),
      cfg.my_rating = some r → cfg.chart = none → cfg.id = none →
      cfg.request key = .error .notAuthorized) ∧
    (∀ (cfg : SearchList) (key : String) (b : Bool),
      cfg.for_content_owner = some b → cfg.for_developer = none →
      cfg.for_mine = none →
      cfg.request key = .error (.authorizationRequired
        "The request uses the `for_content_owner` parameter but is not properly authorized")) ∧
    (∀ (cfg : SearchList) (key : String) (b : Bool),
      cfg.for_developer = some b → cfg.for_content_owner = none →
      cfg.for_mine = none →
      cfg.request key = .error (.authorizationRequired
        "The request uses the `for_developer` parameter but is not properly authorized")) ∧
    (∀ (cfg : SearchList) (key : String) (b : Bool),
      cfg.for_mine = some b → cfg.for_content_owner = none →
      cfg.for_developer = none →
      cfg.request key = .error (.authorizationRequired
        "The request uses the `for_mine` parameter but is not properly authorized")) := by
  refine ⟨?_, ?_, ?_, ?_, ?_, ?_⟩
  · intro cfg key b h1 h2 h3 h4
    simp [ChannelList.request, ChannelList.selectorFlags, h1, h2, h3, h4]
  · intro cfg key b h1 h2 h3 h4
    simp [ChannelList.request, ChannelList.selectorFlags, h1, h2, h3, h4]
  · intro cfg key r h1 h2 h3
    simp [VideoList.request, h1, h2, h3]
  · intro cfg key b h1 h2 h3
    simp [SearchList.request, SearchList.selectorFlags, h1, h2, h3]
  · intro cfg key b h1 h2 h3
    simp [SearchList.request, SearchList.selectorFlags, h1, h2, h3]
  · intro cfg key b h1 h2 h3
    simp [SearchList.request, SearchList.selectorFlags, h1, h2, h3]

/-- C2 witness: the amended statement applied at concrete builders in
which the gated parameter is the only selector set, with unrelated
optional parameters also present. -/
theorem C2_witness :
    ChannelList.request
      { part := [ChannelPart.id], managed_by_me := some true,
        hl := some "en", max_results := some 7 } "K" =
      .error (.authorizationRequired
        "The request uses the `managed_by_me` parameter but is not properly authorized") ∧
    ChannelList.request { part := [ChannelPart.id], mine := some false } "K" =
      .error (.authorizationRequired
        "The request uses the `mine` parameter but is not properly authorized") ∧
    VideoList.request
      { part := [VideoPart.id], my_rating := some MyRating.like,
        region_code := some "US" } "K" = .error .notAuthorized ∧
    SearchList.request
      { part := [SearchPart.id], for_content_owner := some true,
        q := some "surfing" } "K" =
      .error (.authorizationRequired
        "The request uses the `for_content_owner` parameter but is not properly authorized") ∧
    SearchList.request { part := [SearchPart.id], for_developer := some true }
      "K" =
      .error (.authorizationRequired
        "The request uses the `for_developer` parameter but is not properly authorized") ∧
    SearchList.request { part := [SearchPart.id], for_mine := some true } "K" =
      .error (.authorizationRequired
        "The request uses the `for_mine` parameter but is not properly authorized") := by
  exact ⟨C2_auth_gated_selectors.1 _ _ true rfl rfl rfl rfl,
    C2_auth_gated_selectors.2.1 _ _ false rfl rfl rfl rfl,
    C2_auth_gated_selectors.2.2.1 _ _ MyRating.like rfl rfl rfl,
    C2_auth_gated_selectors.2.2.2.1 _ _ true rfl rfl rfl,
    C2_auth_gated_selectors.2.2.2.2.1 _ _ true rfl rfl rfl,
    C2_auth_gated_selectors.2.2.2.2.2 _ _ true rfl rfl rfl⟩

/-- C7 counterexample: on the videos builder, leaving the `id` filter
unset (with no other selector) produces the same bare `InvalidParameter`
error as setting it to an explicitly empty list — not the distinct
`MissingRequiredParameter` error the claim describes (this revision's
error enum has no such variant). -/
theorem C7_counterexample :
    VideoList.request { part := [VideoPart.snippet], id := some [] } "KEY" =
      .error .invalidParameter ∧
    VideoList.request { part := [VideoPart.snippet] } "KEY" =
      .error .invalidParameter := by
  exact ⟨by rfl, by rfl⟩

/-- C7 (amended): on the videos list builder, an explicitly empty `id`
list makes finalization return `InvalidParameter`, and leaving `id` unset
with no other selector also returns `InvalidParameter` — the same
variant, not a distinct missing-parameter error. -/
theorem C7_empty_id_errors :
    (∀ (cfg : VideoList) (key : String),
      cfg.id = some [] → cfg.chart = none → cfg.my_rating = none →
      cfg.request key = .error .invalidParameter) ∧
    (∀ (cfg : VideoList) (key : String),
      cfg.chart = none → cfg.id = none → cfg.my_rating = none →
      cfg.request key = .error .invalidParameter) := by
  constructor
  · intro cfg key h1 h2 h3
    simp [VideoList.request, h1, h2, h3]
  · intro cfg key h1 h2 h3
    simp [VideoList.request, h1, h2, h3]

/-- C7 witness: the amended statement applied at a builder with an empty
`id` list and at a builder with no selector at all. -/
theorem C7_witness :
    VideoList.request
      { part := [VideoPart.id], id := some ([]), hl := some "en" } "K" =
      .error .invalidParameter ∧
    VideoList.request { part := [VideoPart.id], max_results := some 5 } "K" =
      .error .invalidParameter := by
  exact ⟨C7_empty_id_errors.1 _ _ rfl rfl rfl,
    C7_empty_id_errors.2 _ _ rfl rfl rfl⟩

/-- C10 counterexample: setting `on_behalf_of_content_owner` to a
non-empty string does not by itself make channels finalization return
`AuthorizationRequired`: with no selector set, the selector check runs
first and returns `MissingRequiredParameter`. -/
theorem C10_counterexample :
    ChannelList.request
      { part := [ChannelPart.snippet],
        on_behalf_of_content_owner := some "owner" } "KEY" =
      .error (.missingRequiredParameter
        "No filter selected. Expected one of: for_username, id, managed_by_me, mine") ∧
    ¬ ChannelList.request
      { part := [ChannelPart.snippet],
        on_behalf_of_content_owner := some "owner" } "KEY" =
      .error (.authorizationRequired
        "The request uses the `on_behalf_of_content_owner` parameter but is not properly authorized") := by
  refine ⟨by rfl, ?_⟩
  intro h
  rw [show ChannelList.request
      { part := [ChannelPart.snippet],
        on_behalf_of_content_owner := some "owner" } "KEY" =
      .error (.missingRequiredParameter
        "No filter selected. Expected one of: for_username, id, managed_by_me, mine")
    from by rfl] at h
  injection h with h
  injection h

/-- C10 (amended): on the channels builder, once the selector check
passes (exactly one of `for_username`/`id` set, the gated selectors
unset), a non-empty `on_behalf_of_content_owner` makes finalization
return `AuthorizationRequired` naming that parameter (conjuncts 1 and 2);
setting it to the empty string is silently ignored — finalization is
identical to leaving the parameter unset (conjunct 3) — and in that case
a successful request emits no `onBehalfOfContentOwner` query parameter
(conjunct 4). -/
theorem C10_on_behalf_of_content_owner :
    (∀ (cfg : ChannelList) (key s u : String),
      cfg.on_behalf_of_content_owner = some s → ¬ s = "" →
      cfg.for_username = some u → cfg.id = none → cfg.managed_by_me = none →
      cfg.mine = none →
      cfg.request key = .error (.authorizationRequired
        "The request uses the `on_behalf_of_content_owner` parameter but is not properly authorized")) ∧
    (∀ (cfg : ChannelList) (key s i : String),
      cfg.on_behalf_of_content_owner = some s → ¬ s = "" →
      cfg.id = some i → cfg.for_username = none → cfg.managed_by_me = none →
      cfg.mine = none →
      cfg.request key = .error (.authorizationRequired
        "The request uses the `on_behalf_of_content_owner` parameter but is not properly authorized")) ∧
    (∀ (cfg : ChannelList) (key : String),
      ChannelList.request
          { cfg with on_behalf_of_content_owner := some "" } key =
        ChannelList.request
          { cfg with on_behalf_of_content_owner := none } key) ∧
    (∀ (cfg : ChannelList) (key : String) (ps : List (String × String)),
      cfg.on_behalf_of_content_owner = some "" →
      cfg.request key = .ok ps →
      ¬ "onBehalfOfContentOwner" ∈ mapKeys ps) := by
  refine ⟨?_, ?_, ?_, ?_⟩
  · intro cfg key s u h1 h2 h3 h4 h5 h6
    simp [ChannelList.request, ChannelList.selectorFlags, h1, h2, h3, h4,
      h5, h6]
  · intro cfg key s i h1 h2 h3 h4 h5 h6
    simp [ChannelList.request, ChannelList.selectorFlags, h1, h2, h3, h4,
      h5, h6]
  · intro cfg key
    simp only [ChannelList.request, ChannelList.selectorFlags]
    cases hfu : cfg.for_username <;> cases hid : cfg.id <;>
      cases hmm : cfg.managed_by_me <;> cases hmi : cfg.mine <;> simp
  · intro cfg key ps hobo
    simp only [ChannelList.request, ChannelList.selectorFlags, hobo]
    cases hfu : cfg.for_username <;> cases hid : cfg.id <;>
      cases hmm : cfg.managed_by_me <;> cases hmi : cfg.mine <;>
        (intro h; simp at h)
    all_goals subst h
    all_goals
      refine not_mem_mapKeys_insertQueryParameter _ _ _ _ (by decide) ?_
    all_goals
      refine not_mem_mapKeys_insertQueryParameter _ _ _ _ (by decide) ?_
    all_goals
      refine not_mem_mapKeys_insertQueryParameter _ _ _ _ (by decide) ?_
    all_goals
      refine not_mem_mapKeys_insertQueryParameter _ _ _ _ (by decide) ?_
    all_goals
      refine not_mem_mapKeys_insertQueryParameters _ _ _ _ (by decide) ?_
    all_goals
      refine not_mem_mapKeys_insertQueryParameter _ _ _ _ (by decide) ?_
    all_goals simp [mapKeys]

/-- C10 witness: the amended statement applied at concrete builders — a
non-empty `on_behalf_of_content_owner` with the `id` selector, the
empty-string/unset equivalence, and the absence of the wire parameter on
a successful request. -/
theorem C10_witness :
    ChannelList.request
      { part := [ChannelPart.id], id := some "c",
        on_behalf_of_content_owner := some "owner" } "K" =
      .error (.authorizationRequired
        "The request uses the `on_behalf_of_content_owner` parameter but is not properly authorized") ∧
    ChannelList.request
      { part := [ChannelPart.id], id := some "c",
        on_behalf_of_content_owner := some "" } "K" =
      ChannelList.request { part := [ChannelPart.id], id := some "c" } "K" ∧
    ¬ "onBehalfOfContentOwner" ∈ mapKeys
      [("key", "K"), ("part", "id"), ("id", "c")] := by
  refine ⟨C10_on_behalf_of_content_owner.2.1 _ _ "owner" "c" rfl (by decide)
      rfl rfl rfl rfl, ?_, ?_⟩
  · exact C10_on_behalf_of_content_owner.2.2.1
      { part := [ChannelPart.id], id := some "c" } "K"
  · exact C10_on_behalf_of_content_owner.2.2.2
      { part := [ChannelPart.id], id := some "c",
        on_behalf_of_content_owner := some "" } "K"
      [("key", "K"), ("part", "id"), ("id", "c")] rfl (by rfl)

/-- C6 counterexample: setting the radius parameter
(`location_radius := "5km"`) while omitting its companion `location`
does not make search finalization fail — the request succeeds, because
the dependency check only runs when `location` is set. -/
theorem C6_counterexample :
    SearchList.request
      { part := [SearchPart.snippet], location_radius := some "5km" }
      "KEY" =
      .ok [("key", "KEY"), ("part", "snippet"),
        ("type", "channel,playlist,video")] := by
  rfl

/-- C6 (amended): the dependency check between `location` and
`location_radius` is inverted in the code and runs only under `location`:
with no selector set and resource type exactly `[video]`, setting both
`location` and `location_radius` yields `InvalidParameter` (whose message
says the radius must be specified when using `location`), while setting
`location` with the radius omitted passes every check and the request
succeeds; a configuration without `location` can never produce this
dependency error, so `location_radius` alone is not validated at all. -/
theorem C6_location_radius_dependency :
    (∀ (cfg : SearchList) (key l r : String),
      cfg.for_content_owner = none → cfg.for_developer = none →
      cfg.for_mine = none → cfg.resource_type = [ResourceType.video] →
      cfg.location = some l → cfg.location_radius = some r →
      cfg.request key = .error (.invalidParameter locationRadiusMsg)) ∧
    (∀ (cfg : SearchList) (key : String),
      cfg.location = none →
      ¬ cfg.request key = .error (.invalidParameter locationRadiusMsg)) ∧
    (∀ (cfg : SearchList) (key l : String),
      cfg.for_content_owner = none → cfg.for_developer = none →
      cfg.for_mine = none → cfg.resource_type = [ResourceType.video] →
      cfg.location = some l → cfg.location_radius = none →
      (cfg.request key).isOk = true) := by
  refine ⟨?_, ?_, ?_⟩
  · intro cfg key l r h1 h2 h3 hrt hloc hrad
    simp [SearchList.request, SearchList.selectorFlags,
      SearchList.optionalSection, step, checkVideoFilter_of_videoOnly,
      checkVideoFilter, checkLocationRadius, h1, h2, h3, hrt, hloc, hrad,
      show (ResourceType.video == ResourceType.video) = true from rfl]
  · intro cfg key hloc
    cases hfc : cfg.for_content_owner <;> cases hfd : cfg.for_developer <;>
      cases hfm : cfg.for_mine <;>
        simp_all [SearchList.request, SearchList.selectorFlags,
          SearchList.optionalSection, step_eq_error,
          checkVideoFilter_eq_error, checkLocationRadius_eq_error,
          radius_ne_tmsv, locationRadiusMsg, typeMustSetBeVideo]
  · intro cfg key l h1 h2 h3 hrt hloc hrad
    simp [SearchList.request, SearchList.selectorFlags,
      SearchList.optionalSection, step, checkVideoFilter_of_videoOnly,
      checkVideoFilter, checkLocationRadius, h1, h2, h3, hrt, hloc, hrad,
      Except.isOk, Except.toBool,
      show (ResourceType.video == ResourceType.video) = true from rfl]

/-- C6 witness: the amended statement applied at concrete search
builders — both `location` and `location_radius` set (error), a radius
without `location` (no dependency error), and `location` without a radius
(success). -/
theorem C6_witness :
    SearchList.request
      { part := [SearchPart.snippet], location := some "37.42,-122.08",
        location_radius := some "5km",
        resource_type := [ResourceType.video] } "K" =
      .error (.invalidParameter locationRadiusMsg) ∧
    ¬ SearchList.request
      { part := [SearchPart.snippet], location_radius := some "5km" } "K" =
      .error (.invalidParameter locationRadiusMsg) ∧
    (SearchList.request
      { part := [SearchPart.snippet], location := some "37.42,-122.08",
        resource_type := [ResourceType.video] } "K").isOk = true := by
  refine ⟨C6_location_radius_dependency.1 _ _ "37.42,-122.08" "5km" rfl rfl
      rfl rfl rfl rfl,
    C6_location_radius_dependency.2.1 _ _ rfl,
    C6_location_radius_dependency.2.2 _ _ "37.42,-122.08" rfl rfl rfl rfl
      rfl rfl⟩

/-- C3 counterexample: a configuration that sets the video-only filter
`video_caption` together with the selector `for_mine` (resource type left
at its default `[channel, playlist, video]`) does not produce the claimed
`InvalidParameter` naming the filter — the selector's authorization check
runs first and returns `AuthorizationRequired`. -/
theorem C3_counterexample :
    SearchList.request
      { part := [SearchPart.snippet], for_mine := some true,
        video_caption := some VideoCaption.any } "KEY" =
      .error (.authorizationRequired
        "The request uses the `for_mine` parameter but is not properly authorized") ∧
    ¬ SearchList.request
      { part := [SearchPart.snippet], for_mine := some true,
        video_caption := some VideoCaption.any } "KEY" =
      .error (typeMustSetBeVideo "video_caption") := by
  refine ⟨by rfl, ?_⟩
  intro h
  rw [show SearchList.request
      { part := [SearchPart.snippet], for_mine := some true,
        video_caption := some VideoCaption.any } "KEY" =
      .error (.authorizationRequired
        "The request uses the `for_mine` parameter but is not properly authorized")
    from by rfl] at h
  injection h with h
  rw [typeMustSetBeVideo] at h
  injection h

set_option maxHeartbeats 4000000 in
/-- C3 (amended): with no search selector set, if the resource-type list
is not exactly `[video]` then finalization fails with `InvalidParameter`
naming the earliest set video-only filter in the fixed check order (in
particular, the filter itself when it is the only one set); and when the
resource-type list is exactly `[video]`, no type-narrowing
`InvalidParameter` for any filter name is ever produced, so every
video-only filter passes this check. -/
theorem C3_video_only_filters :
    (∀ (cfg : SearchList) (key f : String),
      cfg.for_content_owner = none → cfg.for_developer = none →
      cfg.for_mine = none → ¬ cfg.resource_type = [ResourceType.video] →
      cfg.firstVideoOnlyFilter = some f →
      cfg.request key = .error (typeMustSetBeVideo f)) ∧
    (∀ (cfg : SearchList) (key f : String),
      cfg.resource_type = [ResourceType.video] →
      ¬ cfg.request key = .error (typeMustSetBeVideo f)) := by
  constructor
  · intro cfg key f h1 h2 h3 hrt hf
    have hvto : (cfg.resource_type.length == 1 &&
        (cfg.resource_type.get? 0 == some ResourceType.video)) = false := by
      rcases hl : cfg.resource_type with _ | ⟨a, _ | ⟨b, t⟩⟩
      · simp
      · rw [hl] at hrt
        cases a
        · rfl
        · rfl
        · exact absurd rfl hrt
      · simp
    rw [searchRequest_noSelectors cfg key h1 h2 h3, hvto]
    simp only [SearchList.firstVideoOnlyFilter] at hf
    by_cases e1 : cfg.event_type.isSome = true
    · rw [if_pos e1] at hf
      injection hf with hf
      subst hf
      simp [SearchList.optionalSection, step, checkVideoFilter,
        checkLocationRadius, e1]
    · rw [if_neg e1] at hf
      by_cases e2 : cfg.location.isSome = true
      · rw [if_pos e2] at hf
        injection hf with hf
        subst hf
        simp [SearchList.optionalSection, step, checkVideoFilter,
          checkLocationRadius, e2, e1]
      · rw [if_neg e2] at hf
        by_cases e3 : cfg.video_caption.isSome = true
        · rw [if_pos e3] at hf
          injection hf with hf
          subst hf
          simp [SearchList.optionalSection, step, checkVideoFilter,
            checkLocationRadius, e3, e1, e2]
        · rw [if_neg e3] at hf
          by_cases e4 : cfg.video_category_id.isSome = true
          · rw [if_pos e4] at hf
            injection hf with hf
            subst hf
            simp [SearchList.optionalSection, step, checkVideoFilter,
              checkLocationRadius, e4, e1, e2, e3]
          · rw [if_neg e4] at hf
            by_cases e5 : cfg.video_definition.isSome = true
            · rw [if_pos e5] at hf
              injection hf with hf
              subst hf
              simp [SearchList.optionalSection, step, checkVideoFilter,
                checkLocationRadius, e5, e1, e2, e3, e4]
            · rw [if_neg e5] at hf
              by_cases e6 : cfg.video_dimension.isSome = true
              · rw [if_pos e6] at hf
                injection hf with hf
                subst hf
                simp [SearchList.optionalSection, step, checkVideoFilter,
                  checkLocationRadius, e6, e1, e2, e3, e4, e5]
              · rw [if_neg e6] at hf
                by_cases e7 : cfg.video_duration.isSome = true
                · rw [if_pos e7] at hf
                  injection hf with hf
                  subst hf
                  simp [SearchList.optionalSection, step, checkVideoFilter,
                    checkLocationRadius, e7, e1, e2, e3, e4, e5, e6]
                · rw [if_neg e7] at hf
                  by_cases e8 : cfg.video_embeddable.isSome = true
                  · rw [if_pos e8] at hf
                    injection hf with hf
                    subst hf
                    simp [SearchList.optionalSection, step, checkVideoFilter,
                      checkLocationRadius, e8, e1, e2, e3, e4, e5, e6, e7]
                  · rw [if_neg e8] at hf
                    by_cases e9 : cfg.video_license.isSome = true
                    · rw [if_pos e9] at hf
                      injection hf with hf
                      subst hf
                      simp [SearchList.optionalSection, step, checkVideoFilter,
                        checkLocationRadius, e9, e1, e2, e3, e4, e5, e6, e7, e8]
                    · rw [if_neg e9] at hf
                      by_cases e10 : cfg.video_paid_product_placement.isSome = true
                      · rw [if_pos e10] at hf
                        injection hf with hf
                        subst hf
                        simp [SearchList.optionalSection, step, checkVideoFilter,
                          checkLocationRadius, e10, e1, e2, e3, e4, e5, e6, e7, e8, e9]
                      · rw [if_neg e10] at hf
                        by_cases e11 : cfg.video_syndicated.isSome = true
                        · rw [if_pos e11] at hf
                          injection hf with hf
                          subst hf
                          simp [SearchList.optionalSection, step, checkVideoFilter,
                            checkLocationRadius, e11, e1, e2, e3, e4, e5, e6, e7, e8, e9, e10]
                        · rw [if_neg e11] at hf
                          by_cases e12 : cfg.video_type.isSome = true
                          · rw [if_pos e12] at hf
                            injection hf with hf
                            subst hf
                            simp [SearchList.optionalSection, step, checkVideoFilter,
                              checkLocationRadius, e12, e1, e2, e3, e4, e5, e6, e7, e8, e9, e10, e11]
                          · rw [if_neg e12] at hf
                            exact absurd hf (by simp)
  · intro cfg key f hrt
    have hvto : (cfg.resource_type.length == 1 &&
        (cfg.resource_type.get? 0 == some ResourceType.video)) = true := by
      rw [hrt]; rfl
    have hvto2 : (cfg.resource_type.length == 1 &&
        (cfg.resource_type[0]? == some ResourceType.video)) = true := by
      rw [hrt]; rfl
    cases hfc : cfg.for_content_owner <;> cases hfd : cfg.for_developer <;>
      cases hfm : cfg.for_mine <;>
        simp [SearchList.request, SearchList.selectorFlags, hfc, hfd, hfm,
          hvto, hvto2, SearchList.optionalSection, step_eq_error,
          checkVideoFilter_of_videoOnly, checkLocationRadius_eq_error,
          tmsv_ne_radius, auth_ne_tmsv, incompat_ne_tmsv]

/-- C3 witness: the amended statement applied at concrete search
builders — `video_duration` set as the only filter with the default
resource-type list (error naming it), and `video_duration` set with
resource type `[video]` (no type-narrowing error). -/
theorem C3_witness :
    SearchList.request
      { part := [SearchPart.snippet],
        video_duration := some VideoDuration.short } "K" =
      .error (typeMustSetBeVideo "video_duration") ∧
    ¬ SearchList.request
      { part := [SearchPart.snippet],
        video_duration := some VideoDuration.short,
        resource_type := [ResourceType.video] } "K" =
      .error (typeMustSetBeVideo "video_duration") := by
  refine ⟨C3_video_only_filters.1 _ _ "video_duration" rfl rfl rfl
      (by decide) rfl,
    C3_video_only_filters.2 _ _ "video_duration" rfl⟩

end VCastle
